import Mathlib

/-!
Verification of the data-transformation core of `src/app.py`
(Bulbshare Link Generator & Data Matcher).

The program reads two CSV files into pandas DataFrames, normalizes the two
join-key columns with `astype(str).str.strip()`, derives a link column from
the Brief ID column, left-merges the frames on the normalized keys, projects
the merged frame onto four fixed output columns, drops rows with an empty
link, and computes two unmatched-record lists with `isin`.  Everything runs
inside one `try/except` that converts any exception into a user-visible
error message.

The embedding below models a pandas cell value as `Value` (a string, a
number, or the missing value NaN), a DataFrame as a column list plus a list
of records, and each line of the processing block (app.py lines 68-125) as a
Lean function.
-/

namespace DIYHelper

/-- A scalar cell value of a DataFrame: a string, a number, or NaN
(missing).  `pd.read_csv` produces NaN for absent fields. -/
inductive Value where
  | str (s : String)
  | num (n : Int)
  | null
deriving DecidableEq, Repr

/-- Model of pandas `astype(str)` on one cell: Python `str()` of the value.
The float NaN stringifies to `"nan"`. -/
def toStr : Value → String
  | .str s => s
  | .num n => toString n
  | .null  => "nan"

/-- Model of `pd.notna` applied to a value that has already been passed
through `astype(str)`: every Python `str` is non-NA, so the test is
constantly true (app.py line 76 applies `pd.notna(x)` to `x` drawn from
`df1[brief_id_col].astype(str)`). -/
def pdNotna (_s : String) : Bool := true

/-- Model of Python `str.strip()` with no argument: remove leading and
trailing whitespace characters. -/
def pyStrip (s : String) : String :=
  String.mk (((s.data.dropWhile Char.isWhitespace).reverse.dropWhile
    Char.isWhitespace).reverse)

/-- Model of one cell of `.astype(str).str.strip()` (app.py lines 68-69):
string coercion followed by whitespace strip. -/
def normalizeVal (v : Value) : String := pyStrip (toStr v)

/-- The fixed base URL (app.py line 72). -/
def baseUrl : String := "https://app.bulbshare.com/2/briefs/create_brief.html?brief="

/-- Model of the link lambda (app.py lines 75-77): the Brief ID cell is
coerced with `astype(str)`, then
`base_url + x.strip() if pd.notna(x) and x.strip() != '' else ''`. -/
def briefLink (v : Value) : String :=
  let x := toStr v
  if pdNotna x && pyStrip x != "" then baseUrl ++ pyStrip x else ""

/-- A record of a DataFrame: an association list from column name to cell
value. -/
abbrev Record := List (String × Value)

/-- Cell lookup within a record; pandas guarantees every row carries every
frame column, a missing entry reads as NaN. -/
def getVal (r : Record) (c : String) : Value :=
  match r.find? (fun p => p.1 == c) with
  | some p => p.2
  | none   => .null

/-- A DataFrame: its column names and its ordered records. -/
structure Df where
  cols : List String
  rows : List Record
deriving Repr

/-- One row of the working copy of `df1` after the processing block has
normalized the Brief Name column in place (line 68) and added the
`Brief_Link` column (lines 75-77). -/
structure MRow where
  client : Value
  briefName : String
  briefId : Value
  link : String
deriving DecidableEq, Repr

/-- One row of the working copy of `df2` after line 69 normalized the Brief
Requirements column in place. -/
structure RRow where
  req : String
  amount : Value
deriving DecidableEq, Repr

/-- Build the working row of `df1` for the selected columns (app.py lines
68 and 75-77). -/
def leftRow (clientCol briefNameCol briefIdCol : String) (r : Record) : MRow :=
  { client := getVal r clientCol
    briefName := normalizeVal (getVal r briefNameCol)
    briefId := getVal r briefIdCol
    link := briefLink (getVal r briefIdCol) }

/-- Build the working row of `df2` for the selected columns (app.py line
69). -/
def rightRow (briefReqCol amountCol : String) (r : Record) : RRow :=
  { req := normalizeVal (getVal r briefReqCol)
    amount := getVal r amountCol }

/-- The merge key test of `pd.merge(..., left_on=brief_name_col,
right_on=brief_req_col)`: equality of the two normalized key cells. -/
def matchesKey (l : MRow) (t : RRow) : Bool := t.req == l.briefName

/-- The rows `pd.merge(..., how='left')` produces for one left row: one row
per matching right row (in the right frame's original order), or a single
row with the right-hand fields NaN when nothing matches. -/
def mergeOne (l : MRow) (right : List RRow) : List (MRow × Option RRow) :=
  match right.filter (matchesKey l) with
  | [] => [(l, none)]
  | ms => ms.map (fun t => (l, some t))

/-- Model of `pd.merge(df1[...], df2[...], left_on=brief_name_col,
right_on=brief_req_col, how='left')` (app.py lines 80-86): left rows in
their original order, each expanded by its matches. -/
def merge (left : List MRow) (right : List RRow) : List (MRow × Option RRow) :=
  left.flatMap (fun l => mergeOne l right)

/-- The number of merged rows a single left row contributes. -/
def numRows (right : List RRow) (l : MRow) : Nat :=
  max 1 (right.filter (matchesKey l)).length

/-- One row of the output frame (app.py lines 89-94); `issuedAmount` is
`none` when the left join found no match (pandas NaN). -/
structure OutRow where
  clientName : Value
  briefName : String
  briefLink : String
  issuedAmount : Option Value
deriving DecidableEq, Repr

/-- Projection of one merged row onto the fixed output columns (app.py
lines 89-94). -/
def projRow (p : MRow × Option RRow) : OutRow :=
  { clientName := p.1.client
    briefName := p.1.briefName
    briefLink := p.1.link
    issuedAmount := p.2.map RRow.amount }

/-- Model of app.py lines 89-97: build `result_df` by projecting the merged
frame, then keep only rows with `Brief_Link != ''`. -/
def buildResult (merged : List (MRow × Option RRow)) : List OutRow :=
  (merged.map projRow).filter (fun o => o.briefLink != "")

/-- Model of `df1[~df1[brief_name_col].isin(df2[brief_req_col])]` (app.py
line 124), over the normalized working rows. -/
def unmatchedFromCsv1 (left : List MRow) (right : List RRow) : List MRow :=
  left.filter (fun l => !((right.map RRow.req).contains l.briefName))

/-- Model of `df2[~df2[brief_req_col].isin(df1[brief_name_col])]` (app.py
line 125), over the normalized working rows. -/
def unmatchedFromCsv2 (left : List MRow) (right : List RRow) : List RRow :=
  right.filter (fun t => !((left.map MRow.briefName).contains t.req))

/-- The processing block behind the button (app.py lines 65-97): column
access on a frame raises `KeyError` when the selected name is not among the
frame's columns; otherwise the block normalizes, derives links, merges,
projects and filters. -/
def process (df1 df2 : Df)
    (clientCol briefNameCol briefIdCol briefReqCol amountCol : String) :
    Except String (List OutRow) :=
  if df1.cols.contains clientCol && df1.cols.contains briefNameCol &&
     df1.cols.contains briefIdCol && df2.cols.contains briefReqCol &&
     df2.cols.contains amountCol then
    Except.ok (buildResult
      (merge (df1.rows.map (leftRow clientCol briefNameCol briefIdCol))
        (df2.rows.map (rightRow briefReqCol amountCol))))
  else
    Except.error "KeyError: a selected column is not in its DataFrame"

/-- The body of the `try` block (app.py lines 33-135): parse both uploads
with `pd.read_csv` — each parse is modelled as an `Except` argument whose
error is the raised exception — then run the processing block.  The first
failure aborts the rest of the block. -/
def runAppBody (csv1 csv2 : Except String Df)
    (clientCol briefNameCol briefIdCol briefReqCol amountCol : String) :
    Except String (List OutRow) :=
  match csv1 with
  | .error e => .error e
  | .ok d1 =>
    match csv2 with
    | .error e => .error e
    | .ok d2 => process d1 d2 clientCol briefNameCol briefIdCol briefReqCol amountCol

/-- One full invocation (app.py lines 32-139): the top-level `except`
(lines 137-139) converts any error raised in the `try` block into the
user-visible message `"Error processing files: ..."` and produces no
output. -/
def runApp (csv1 csv2 : Except String Df)
    (clientCol briefNameCol briefIdCol briefReqCol amountCol : String) :
    Except String (List OutRow) :=
  match runAppBody csv1 csv2 clientCol briefNameCol briefIdCol briefReqCol amountCol with
  | .ok out => .ok out
  | .error e => .error ("Error processing files: " ++ e)

/-- A concrete Primary upload used to instantiate theorems: one record with
a client, a brief name and a padded brief id. -/
def sampleDf1 : Df :=
  { cols := ["Client", "Brief", "ID"]
    rows := [[("Client", Value.str "A"), ("Brief", Value.str "Alpha"),
              ("ID", Value.str " x1 ")]] }

/-- A concrete Secondary upload used to instantiate theorems: one record
with a requirement and an amount. -/
def sampleDf2 : Df :=
  { cols := ["Req", "Amt"]
    rows := [[("Req", Value.str "Alpha"), ("Amt", Value.num 1000)]] }

/-! ### Helper lemmas about the merge -/

/-- Cell lookup in a one-column record. -/
theorem getVal_singleton (c : String) (v : Value) : getVal [(c, v)] c = v := by
  simp [getVal]

/-- Membership in the unmatched-from-CSV1 list is membership in the left
frame together with absence of the key from the right key column. -/
theorem mem_unmatched1_iff (L : List MRow) (R : List RRow) (l : MRow) :
    l ∈ unmatchedFromCsv1 L R ↔ (l ∈ L ∧ ¬ ∃ u ∈ R, u.req = l.briefName) := by
  unfold unmatchedFromCsv1
  rw [List.mem_filter]
  simp [List.mem_map]

/-- Membership in the unmatched-from-CSV2 list is membership in the right
frame together with absence of the key from the left key column. -/
theorem mem_unmatched2_iff (L : List MRow) (R : List RRow) (t : RRow) :
    t ∈ unmatchedFromCsv2 L R ↔ (t ∈ R ∧ ¬ ∃ u ∈ L, u.briefName = t.req) := by
  unfold unmatchedFromCsv2
  rw [List.mem_filter]
  simp [List.mem_map]

/-- Every row of the filtered output frame has a non-empty link and is the
projection of a merged row. -/
theorem buildResult_mem (merged : List (MRow × Option RRow)) (o : OutRow)
    (ho : o ∈ buildResult merged) :
    o.briefLink ≠ "" ∧ ∃ p ∈ merged, o = projRow p := by
  unfold buildResult at ho
  obtain ⟨hmem, hne⟩ := List.mem_filter.mp ho
  obtain ⟨p, hp, rfl⟩ := List.mem_map.mp hmem
  refine ⟨?_, p, hp, rfl⟩
  simpa using hne

/-- One left row contributes exactly `numRows` merged rows. -/
theorem mergeOne_length (l : MRow) (R : List RRow) :
    (mergeOne l R).length = numRows R l := by
  unfold mergeOne numRows
  cases h : R.filter (matchesKey l) with
  | nil => simp
  | cons a as => simp [Nat.max_eq_right]

/-- The merged row count is the sum of the per-left-row counts. -/
theorem merge_length (L : List MRow) (R : List RRow) :
    (merge L R).length = (L.map (numRows R)).sum := by
  unfold merge
  rw [List.length_flatMap]
  congr 1
  exact List.map_congr_left (fun l _ => mergeOne_length l R)

/-- The left-row column of the block contributed by one left row is that
row, repeated `numRows` times. -/
theorem mergeOne_map_fst (l : MRow) (R : List RRow) :
    (mergeOne l R).map Prod.fst = List.replicate (numRows R l) l := by
  unfold mergeOne numRows
  cases h : R.filter (matchesKey l) with
  | nil => simp
  | cons a as =>
    rw [Nat.max_eq_right (by simp)]
    simp only [List.map_map]
    have : (Prod.fst ∘ fun t : RRow => (l, some t)) = fun _ => l := rfl
    rw [this, List.map_const']

/-- A merged row pairing `l` with matched row `t` occurs in `mergeOne a R`
exactly when `a` is `l` and `t` is a matching row of `R`. -/
theorem mem_mergeOne_some (a l : MRow) (R : List RRow) (t : RRow) :
    ((l, some t) ∈ mergeOne a R) ↔ (a = l ∧ t ∈ R.filter (matchesKey a)) := by
  unfold mergeOne
  cases h : R.filter (matchesKey a) with
  | nil => simp
  | cons b bs =>
    simp only [List.mem_map, List.mem_singleton, Prod.mk.injEq, Option.some.injEq]
    constructor
    · rintro ⟨u, hu, rfl, rfl⟩
      exact ⟨rfl, hu⟩
    · rintro ⟨rfl, ht⟩
      exact ⟨t, ht, rfl, rfl⟩

/-- A merged row with an absent right side occurs in `mergeOne a R` exactly
when `a` is `l` and no row of `R` matches. -/
theorem mem_mergeOne_none (a l : MRow) (R : List RRow) :
    ((l, (none : Option RRow)) ∈ mergeOne a R) ↔
      (a = l ∧ R.filter (matchesKey a) = []) := by
  unfold mergeOne
  cases h : R.filter (matchesKey a) with
  | nil => simp [eq_comm]
  | cons b bs => simp [List.mem_map]

/-- Characterisation of the matched rows of the merge. -/
theorem mem_merge_some (L : List MRow) (R : List RRow) (l : MRow) (t : RRow) :
    ((l, some t) ∈ merge L R) ↔ (l ∈ L ∧ t ∈ R ∧ matchesKey l t = true) := by
  unfold merge
  rw [List.mem_flatMap]
  constructor
  · rintro ⟨a, haL, hmem⟩
    obtain ⟨rfl, hf⟩ := (mem_mergeOne_some a l R t).mp hmem
    obtain ⟨htR, hm⟩ := List.mem_filter.mp hf
    exact ⟨haL, htR, hm⟩
  · rintro ⟨hl, ht, hm⟩
    exact ⟨l, hl, (mem_mergeOne_some l l R t).mpr
      ⟨rfl, List.mem_filter.mpr ⟨ht, hm⟩⟩⟩

/-- Characterisation of the unmatched rows of the merge. -/
theorem mem_merge_none (L : List MRow) (R : List RRow) (l : MRow) :
    ((l, (none : Option RRow)) ∈ merge L R) ↔
      (l ∈ L ∧ R.filter (matchesKey l) = []) := by
  unfold merge
  rw [List.mem_flatMap]
  constructor
  · rintro ⟨a, haL, hmem⟩
    obtain ⟨rfl, hf⟩ := (mem_mergeOne_none a l R).mp hmem
    exact ⟨haL, hf⟩
  · rintro ⟨hl, hf⟩
    exact ⟨l, hl, (mem_mergeOne_none l l R).mpr ⟨rfl, hf⟩⟩

/-- The left-row column of the merge is the left list with every row
repeated once per merged row it contributes. -/
theorem merge_map_fst (L : List MRow) (R : List RRow) :
    (merge L R).map Prod.fst =
      L.flatMap (fun l => List.replicate (numRows R l) l) := by
  unfold merge
  rw [List.map_flatMap]
  simp only [mergeOne_map_fst]

/-- Every left row contributes at least one merged row. -/
theorem numRows_pos (R : List RRow) (l : MRow) : 1 ≤ numRows R l := by
  unfold numRows
  omega

/-- A list is a sublist of its expansion by positive per-element
replication. -/
theorem sublist_flatMap_replicate (L : List MRow) (f : MRow → Nat)
    (hf : ∀ l, 1 ≤ f l) :
    List.Sublist L (L.flatMap (fun l => List.replicate (f l) l)) := by
  induction L with
  | nil => simp
  | cons a as ih =>
    rw [List.flatMap_cons]
    obtain ⟨k, hk⟩ : ∃ k, f a = k + 1 := ⟨f a - 1, by have := hf a; omega⟩
    rw [hk, List.replicate_succ, List.cons_append]
    exact List.Sublist.cons₂ a (ih.trans (List.sublist_append_right _ _))

/-! ### C1: derived Brief_Link -/

/-- C1 counterexample: the claim says the Brief_Link of a record whose
Brief ID is null/absent is the empty string, but `astype(str)` turns NaN
into the string `"nan"`, so the code produces the base URL followed by
`nan`. -/
theorem C1_counterexample :
    briefLink Value.null = baseUrl ++ "nan" ∧ briefLink Value.null ≠ "" := by
  constructor
  · rfl
  · decide

/-- C1 (amended): for every Primary record, the Brief_Link equals the fixed
prefix concatenated with the stripped `str()`-coercion of the Brief ID cell
whenever that stripped coercion is non-empty — a null Brief ID coerces to
the string `"nan"` and therefore also yields a link — and equals the empty
string exactly when the stripped coercion is empty. -/
theorem C1_link_of_trimmed_id (cc bnc bic : String) (r : Record) :
    toStr Value.null = "nan" ∧
    (pyStrip (toStr (getVal r bic)) ≠ "" →
      (leftRow cc bnc bic r).link = baseUrl ++ pyStrip (toStr (getVal r bic))) ∧
    (pyStrip (toStr (getVal r bic)) = "" → (leftRow cc bnc bic r).link = "") := by
  refine ⟨rfl, ?_, ?_⟩ <;> intro h <;>
    simp [leftRow, briefLink, pdNotna, h]

/-- C1 witness: instance of the amended link theorem at a record whose
Brief ID cell is the string `" x1 "`. -/
theorem C1_link_witness :
    pyStrip (toStr (getVal [("id", Value.str " x1 ")] "id")) ≠ "" ∧
    (leftRow "c" "b" "id" [("id", Value.str " x1 ")]).link =
      baseUrl ++ pyStrip (toStr (getVal [("id", Value.str " x1 ")] "id")) :=
  ⟨by decide,
   (C1_link_of_trimmed_id "c" "b" "id" [("id", Value.str " x1 ")]).2.1 (by decide)⟩

/-! ### C2: join multiplicity -/

/-- C2 counterexample: the claim says the join produces exactly one output
row per Primary record; with one Primary row keyed `"Alpha"` and two
Secondary rows keyed `"Alpha"`, `pd.merge(..., how='left')` produces two
rows. -/
theorem C2_counterexample :
    ¬ ((merge
      [{ client := Value.str "Client", briefName := "Alpha",
         briefId := Value.str "x1", link := "L" }]
      [{ req := "Alpha", amount := Value.num 1000 },
       { req := "Alpha", amount := Value.num 2000 }]).length = 1) := by
  decide

/-- C2 (amended): the left join produces one output row per (Primary
record, matching Secondary record) pair — all matches are kept, not at most
one — and a single row with the Secondary side absent for an unmatched
Primary record; hence the joined row count is the sum over Primary records
of `max 1 (number of matches)`, which exceeds the Primary count exactly
when some key is duplicated in Secondary. -/
theorem C2_join_row_multiplicity (L : List MRow) (R : List RRow) :
    (merge L R).length = (L.map (numRows R)).sum ∧
    (∀ l t, ((l, some t) ∈ merge L R) ↔ (l ∈ L ∧ t ∈ R ∧ matchesKey l t = true)) ∧
    (∀ l, ((l, (none : Option RRow)) ∈ merge L R) ↔
      (l ∈ L ∧ R.filter (matchesKey l) = [])) ∧
    (∀ l, 1 ≤ numRows R l) :=
  ⟨merge_length L R, fun l t => mem_merge_some L R l t,
   fun l => mem_merge_none L R l, numRows_pos R⟩

/-- C2 witness: the joined row count over a concrete pair of datasets with
a duplicated Secondary key, computed through the amended theorem. -/
theorem C2_join_row_witness :
    (merge
      [{ client := Value.str "Client", briefName := "Beta",
         briefId := Value.str "x2", link := "L" }]
      [{ req := "Beta", amount := Value.num 1 },
       { req := "Beta", amount := Value.num 2 }]).length =
      ([{ client := Value.str "Client", briefName := "Beta",
          briefId := Value.str "x2", link := "L" }].map
        (numRows [{ req := "Beta", amount := Value.num 1 },
                  { req := "Beta", amount := Value.num 2 }])).sum :=
  (C2_join_row_multiplicity
    [{ client := Value.str "Client", briefName := "Beta",
       briefId := Value.str "x2", link := "L" }]
    [{ req := "Beta", amount := Value.num 1 },
     { req := "Beta", amount := Value.num 2 }]).1

/-! ### C3: normalization of a key column -/

/-- C3 counterexample: the claim says a null/absent value becomes the empty
string after coercion, but `astype(str)` coerces NaN to the string
`"nan"`. -/
theorem C3_counterexample :
    normalizeVal Value.null = "nan" ∧ normalizeVal Value.null ≠ "" := by
  constructor
  · rfl
  · decide

/-- C3 (amended): normalization replaces the cell at the selected column
with its stripped string form — string cells keep their text modulo
leading/trailing whitespace, numeric cells become their decimal text — but
a null/absent cell is coerced to the string `"nan"`, not to the empty
string. -/
theorem C3_normalize_contract (cc bnc bic brc iac : String) (r t : Record)
    (s : String) (n : Int) :
    (leftRow cc bnc bic r).briefName = pyStrip (toStr (getVal r bnc)) ∧
    (rightRow brc iac t).req = pyStrip (toStr (getVal t brc)) ∧
    normalizeVal (Value.str s) = pyStrip s ∧
    normalizeVal (Value.num n) = pyStrip (toString n) ∧
    normalizeVal Value.null = "nan" :=
  ⟨rfl, rfl, rfl, rfl, rfl⟩

/-! ### C4: unmatched sets are the complement of the matched sets -/

/-- C4: each Primary record is in exactly one of {has a match in Secondary,
unmatched-from-CSV1 list}: it is unmatched precisely when no Secondary key
equals its key, the two cases are mutually exclusive and jointly
exhaustive, and symmetrically for Secondary records. -/
theorem C4_unmatched_complement (L : List MRow) (R : List RRow) (l : MRow)
    (t : RRow) (hl : l ∈ L) (ht : t ∈ R) :
    ((l ∈ unmatchedFromCsv1 L R) ↔ ¬ ∃ u ∈ R, u.req = l.briefName) ∧
    ¬ ((∃ u ∈ R, u.req = l.briefName) ∧ l ∈ unmatchedFromCsv1 L R) ∧
    ((∃ u ∈ R, u.req = l.briefName) ∨ l ∈ unmatchedFromCsv1 L R) ∧
    ((t ∈ unmatchedFromCsv2 L R) ↔ ¬ ∃ u ∈ L, u.briefName = t.req) := by
  have h1 := mem_unmatched1_iff L R l
  have h2 := mem_unmatched2_iff L R t
  constructor
  · rw [h1]; simp [hl]
  constructor
  · rintro ⟨hex, hmem⟩
    exact ((h1.mp hmem).2) hex
  constructor
  · by_cases hex : ∃ u ∈ R, u.req = l.briefName
    · exact Or.inl hex
    · exact Or.inr (h1.mpr ⟨hl, hex⟩)
  · rw [h2]; simp [ht]

/-- C4 witness: instance of the complement theorem for a one-record Primary
frame keyed `"Beta"` and a one-record Secondary frame keyed `"Alpha"`. -/
theorem C4_unmatched_witness :
    ({ client := Value.str "B", briefName := "Beta", briefId := Value.null,
       link := "" } : MRow) ∈
      unmatchedFromCsv1
        [{ client := Value.str "B", briefName := "Beta", briefId := Value.null,
           link := "" }]
        [{ req := "Alpha", amount := Value.num 1 }] :=
  ((C4_unmatched_complement
    [{ client := Value.str "B", briefName := "Beta", briefId := Value.null,
       link := "" }]
    [{ req := "Alpha", amount := Value.num 1 }]
    { client := Value.str "B", briefName := "Beta", briefId := Value.null,
      link := "" }
    { req := "Alpha", amount := Value.num 1 }
    (by decide) (by decide)).1).mpr (by decide)

/-! ### C5: keys are compared after trimming -/

/-- C5: the join's key test compares the whitespace-stripped string forms
of the two key cells (case-sensitively): a Primary Brief Name `" Alpha "`
matches a Secondary Brief Requirement `"Alpha"`, while `"alpha"` does not
match `"Alpha"`. -/
theorem C5_trimmed_key_comparison (cc bnc bic brc iac : String)
    (r t : Record) :
    (matchesKey (leftRow cc bnc bic r) (rightRow brc iac t) = true ↔
      pyStrip (toStr (getVal t brc)) = pyStrip (toStr (getVal r bnc))) ∧
    matchesKey (leftRow cc bnc bic [(bnc, Value.str " Alpha ")])
      (rightRow brc iac [(brc, Value.str "Alpha")]) = true ∧
    matchesKey (leftRow cc bnc bic [(bnc, Value.str "alpha")])
      (rightRow brc iac [(brc, Value.str "Alpha")]) = false := by
  refine ⟨?_, ?_, ?_⟩
  · simp [matchesKey, leftRow, rightRow, normalizeVal]
  · simp only [matchesKey, leftRow, rightRow, getVal_singleton]
    decide
  · simp only [matchesKey, leftRow, rightRow, getVal_singleton]
    decide

/-! ### C7: NaN keys coerce to "nan" and join with each other -/

/-- C7: a missing (NaN) Brief Name or Brief Requirement cell is coerced by
the normalization to the literal string `"nan"`, so a Primary record with a
missing Brief Name satisfies the key test against any Secondary record with
a missing Brief Requirement, the pair appears in the merge, and neither
record is reported in the unmatched lists. -/
theorem C7_nan_keys_join (L : List MRow) (R : List RRow)
    (cc bnc bic brc iac : String) (r t : Record)
    (hr : getVal r bnc = Value.null) (ht : getVal t brc = Value.null) :
    (leftRow cc bnc bic r).briefName = "nan" ∧
    (rightRow brc iac t).req = "nan" ∧
    matchesKey (leftRow cc bnc bic r) (rightRow brc iac t) = true ∧
    (leftRow cc bnc bic r ∈ L → rightRow brc iac t ∈ R →
      ((leftRow cc bnc bic r, some (rightRow brc iac t)) ∈ merge L R ∧
       leftRow cc bnc bic r ∉ unmatchedFromCsv1 L R ∧
       rightRow brc iac t ∉ unmatchedFromCsv2 L R)) := by
  have hln : (leftRow cc bnc bic r).briefName = "nan" := by
    simp [leftRow, normalizeVal, hr, toStr, pyStrip]
  have hrn : (rightRow brc iac t).req = "nan" := by
    simp [rightRow, normalizeVal, ht, toStr, pyStrip]
  have hm : matchesKey (leftRow cc bnc bic r) (rightRow brc iac t) = true := by
    simp [matchesKey, hln, hrn]
  refine ⟨hln, hrn, hm, ?_⟩
  intro hL hR
  refine ⟨(mem_merge_some L R _ _).mpr ⟨hL, hR, hm⟩, ?_, ?_⟩
  · intro hmem
    exact ((mem_unmatched1_iff L R _).mp hmem).2
      ⟨rightRow brc iac t, hR, by rw [hrn, hln]⟩
  · intro hmem
    exact ((mem_unmatched2_iff L R _).mp hmem).2
      ⟨leftRow cc bnc bic r, hL, by rw [hrn, hln]⟩

/-- C7 witness: instance of the NaN-key theorem with singleton frames whose
key cells are both missing. -/
theorem C7_nan_keys_witness :
    matchesKey (leftRow "c" "b" "id" [("b", Value.null)])
      (rightRow "d" "h" [("d", Value.null)]) = true :=
  (C7_nan_keys_join [leftRow "c" "b" "id" [("b", Value.null)]]
    [rightRow "d" "h" [("d", Value.null)]] "c" "b" "id" "d" "h"
    [("b", Value.null)] [("d", Value.null)] (by decide) (by decide)).2.2.1

/-! ### C6: output projection and empty-link filter -/

/-- C6: a successful run's result is the projection of the merged rows onto
the fixed output columns Client_Name, Brief_Name, Brief_Link, Issued_Amount
with every row whose Brief_Link is the empty string removed; consequently
no output row has an empty Brief_Link, and every output row is the
projection of some merged row. -/
theorem C6_result_projection (df1 df2 : Df) (cc bnc bic brc iac : String)
    (out : List OutRow)
    (h : process df1 df2 cc bnc bic brc iac = Except.ok out) :
    out = buildResult (merge (df1.rows.map (leftRow cc bnc bic))
        (df2.rows.map (rightRow brc iac))) ∧
    (∀ o ∈ out, o.briefLink ≠ "") ∧
    (∀ o ∈ out, ∃ p ∈ merge (df1.rows.map (leftRow cc bnc bic))
        (df2.rows.map (rightRow brc iac)), o = projRow p) := by
  unfold process at h
  split at h
  · injection h with h'
    subst h'
    refine ⟨rfl, ?_, ?_⟩
    · intro o ho; exact (buildResult_mem _ o ho).1
    · intro o ho; exact (buildResult_mem _ o ho).2
  · exact Except.noConfusion h

/-- C6 witness: instance of the projection theorem on concrete uploads; the
single matched record survives the filter with its generated link. -/
theorem C6_result_witness :
    [({ clientName := Value.str "A", briefName := "Alpha",
        briefLink := baseUrl ++ "x1",
        issuedAmount := some (Value.num 1000) } : OutRow)] =
      buildResult (merge (sampleDf1.rows.map (leftRow "Client" "Brief" "ID"))
        (sampleDf2.rows.map (rightRow "Req" "Amt"))) :=
  (C6_result_projection sampleDf1 sampleDf2 "Client" "Brief" "ID" "Req" "Amt"
    [{ clientName := Value.str "A", briefName := "Alpha",
       briefLink := baseUrl ++ "x1", issuedAmount := some (Value.num 1000) }]
    rfl).1

/-! ### C8: the join preserves Primary's record order -/

/-- C8: the Primary-sourced column of the merge output lists the Primary
rows in their original relative order — each Primary row appears as a
contiguous block, one occurrence per merged row it contributes, and the
Primary sequence itself is a sublist of that column. -/
theorem C8_left_order_preserved (L : List MRow) (R : List RRow) :
    (merge L R).map Prod.fst =
      L.flatMap (fun l => List.replicate (numRows R l) l) ∧
    (∀ l, 1 ≤ numRows R l) ∧
    List.Sublist L ((merge L R).map Prod.fst) := by
  refine ⟨merge_map_fst L R, numRows_pos R, ?_⟩
  rw [merge_map_fst L R]
  exact sublist_flatMap_replicate L (numRows R) (numRows_pos R)

/-! ### C9: the transform is deterministic -/

/-- C9: the transform is a pure function of the uploaded datasets and the
column selectors: running it twice on equal inputs with the same selectors
yields equal output. -/
theorem C9_deterministic (d1 d2 d1' d2' : Df) (cc bnc bic brc iac : String)
    (h1 : d1 = d1') (h2 : d2 = d2') :
    process d1 d2 cc bnc bic brc iac = process d1' d2' cc bnc bic brc iac := by
  rw [h1, h2]

/-- C9 witness: two runs on the concrete sample uploads coincide. -/
theorem C9_deterministic_witness :
    process sampleDf1 sampleDf2 "Client" "Brief" "ID" "Req" "Amt" =
      process sampleDf1 sampleDf2 "Client" "Brief" "ID" "Req" "Amt" :=
  C9_deterministic sampleDf1 sampleDf2 sampleDf1 sampleDf2 "Client" "Brief"
    "ID" "Req" "Amt" rfl rfl

/-! ### C10: errors are surfaced and output is all-or-nothing -/

/-- C10: one invocation either returns the full output table or a single
user-visible message prefixed `"Error processing files: "` — never both; a
parse failure of either upload is converted to that message, and a selected
column name missing from its dataset (here: the Brief Name column) likewise
produces the message and no output. -/
theorem C10_all_or_nothing (csv1 csv2 : Except String Df) (df1 df2 : Df)
    (cc bnc bic brc iac : String) :
    ((∃ out, runApp csv1 csv2 cc bnc bic brc iac = Except.ok out) ∨
     (∃ msg, runApp csv1 csv2 cc bnc bic brc iac =
        Except.error ("Error processing files: " ++ msg))) ∧
    (∀ e, csv1 = Except.error e →
      runApp csv1 csv2 cc bnc bic brc iac =
        Except.error ("Error processing files: " ++ e)) ∧
    (∀ e, csv1 = Except.ok df1 → csv2 = Except.error e →
      runApp csv1 csv2 cc bnc bic brc iac =
        Except.error ("Error processing files: " ++ e)) ∧
    (csv1 = Except.ok df1 → csv2 = Except.ok df2 →
      df1.cols.contains bnc = false →
      ∃ msg, runApp csv1 csv2 cc bnc bic brc iac =
        Except.error ("Error processing files: " ++ msg)) := by
  refine ⟨?_, ?_, ?_, ?_⟩
  · unfold runApp
    cases h : runAppBody csv1 csv2 cc bnc bic brc iac with
    | ok o => exact Or.inl ⟨o, rfl⟩
    | error m => exact Or.inr ⟨m, rfl⟩
  · rintro e rfl
    rfl
  · rintro e rfl rfl
    rfl
  · rintro rfl rfl hb
    refine ⟨"KeyError: a selected column is not in its DataFrame", ?_⟩
    have hb' : bnc ∉ df1.cols := by simpa using hb
    simp [runApp, runAppBody, process, hb']

/-- C10 witness: a run whose Brief Name selector names a column absent from
the Primary upload ends in the user-visible error message. -/
theorem C10_all_or_nothing_witness :
    ∃ msg, runApp (Except.ok { cols := ["A"], rows := [] })
      (Except.ok { cols := ["D", "E"], rows := [] }) "A" "B" "A" "D" "E" =
        Except.error ("Error processing files: " ++ msg) :=
  (C10_all_or_nothing (Except.ok { cols := ["A"], rows := [] })
    (Except.ok { cols := ["D", "E"], rows := [] })
    { cols := ["A"], rows := [] } { cols := ["D", "E"], rows := [] }
    "A" "B" "A" "D" "E").2.2.2 rfl rfl (by decide)

end DIYHelper
